import Mathlib

/-!
Shallow embedding of the rust-raft-toy-impl repository: the driver loop in
src/raft_consensus/src/raft/mod.rs, the simulated transport in
tests/simulator/sim_transport.rs, and the simulated network in
tests/simulator/sim_network.rs, together with theorems settling the
specification claims about them.

Durations and clock instants are modelled as natural numbers (an abstract
unit of time, e.g. nanoseconds); Rust Duration values are non-negative and
checked_sub / Instant::elapsed saturate at zero, which matches truncated
natural-number subtraction.
-/

namespace RaftToy

/-- Modelled from the spec (section 3; the common module is not under src):
ServerId is an opaque totally-ordered identifier, a u64 newtype in the source. -/
abbrev ServerId := Nat

/-- Modelled from the spec (section 3): TermIndex is a non-negative integer. -/
abbrev TermIndex := Nat

/-- Modelled from the spec (section 3): LogIndex is a 1-based integer, 0 the sentinel. -/
abbrev LogIndex := Nat

/-- Modelled from the spec (section 3): RequestId is an opaque unique token
(a Uuid in the source); its content is never inspected by the driver or
the simulator, so we model it as a natural number. -/
abbrev RequestId := Nat

/-- Modelled from the spec (section 3): Command is opaque to the core. -/
abbrev Command := Nat

/-- Modelled from the spec (section 4.2; rpc_messages.rs is not under src):
a RequestVote request carries request_id, from, to, term, last_log_index,
last_log_term. -/
structure RequestVote where
  request_id : RequestId
  fromId : ServerId
  toId : ServerId
  term : TermIndex
  last_log_index : LogIndex
  last_log_term : TermIndex
deriving DecidableEq, Repr

/-- Modelled from the spec (section 3): a log entry is a term and a command. -/
structure LogEntry where
  term : TermIndex
  command : Command
deriving DecidableEq, Repr

/-- Modelled from the spec (section 4.2): an AppendEntries request. -/
structure AppendEntries where
  request_id : RequestId
  fromId : ServerId
  toId : ServerId
  term : TermIndex
  prev_log_index : LogIndex
  prev_log_term : TermIndex
  entries : List LogEntry
  leader_commit : LogIndex
deriving DecidableEq, Repr

/-- Modelled from the spec (section 4.2): the two request kinds. -/
inductive Request where
  | requestVote (rv : RequestVote)
  | appendEntries (ae : AppendEntries)
deriving DecidableEq, Repr

/-- Modelled from the spec (section 4.2): a Vote reply. -/
structure Vote where
  request_id : RequestId
  fromId : ServerId
  toId : ServerId
  term : TermIndex
  vote_granted : Bool
deriving DecidableEq, Repr

/-- Modelled from the spec (section 4.2): an AppendEntries reply. -/
structure AppendEntriesReply where
  request_id : RequestId
  fromId : ServerId
  toId : ServerId
  term : TermIndex
  success : Bool
  match_index : LogIndex
deriving DecidableEq, Repr

/-- Modelled from the spec (section 4.2): the two reply kinds. -/
inductive ReplyTo where
  | requestVote (v : Vote)
  | appendEntries (r : AppendEntriesReply)
deriving DecidableEq, Repr

/-- Modelled from the spec: RpcMessage is either a request or a reply
(matched on by the driver in mod.rs lines 123-127 and carried by the
simulated network). -/
inductive RpcMessage where
  | request (r : Request)
  | reply (r : ReplyTo)
deriving DecidableEq, Repr

/-- Destination server of a message (RpcMessage::to in the source). -/
def RpcMessage.toId : RpcMessage → ServerId
  | .request (.requestVote rv) => rv.toId
  | .request (.appendEntries ae) => ae.toId
  | .reply (.requestVote v) => v.toId
  | .reply (.appendEntries r) => r.toId

/-- Originating server of a message (RpcMessage::from in the source). -/
def RpcMessage.fromId : RpcMessage → ServerId
  | .request (.requestVote rv) => rv.fromId
  | .request (.appendEntries ae) => ae.fromId
  | .reply (.requestVote v) => v.fromId
  | .reply (.appendEntries r) => r.fromId

/-- Modelled from the spec (section 4.3; state_machine.rs is not under src):
the events fed to the node state machine by the driver. -/
inductive Event where
  | Tick (now : Nat)
  | IncomingRpc (msg : RpcMessage)
deriving DecidableEq, Repr

/-- Modelled from the spec (section 4.3): the actions returned by a step of
the node state machine, matched on by the driver in mod.rs lines 122-134. -/
inductive Action where
  | OutgoingRpc (msg : RpcMessage)
  | StartTickTimer (duration : Nat)
  | ApplyLogEntries (range : LogIndex × LogIndex)
deriving DecidableEq, Repr

/-- The three role tags, from RaftNodeState in mod.rs lines 23-28. -/
inductive RaftNodeState where
  | Follower
  | Candidate
  | Leader
deriving DecidableEq, Repr

/-- The snapshot pushed to the event collector, from RaftStateEvent in
mod.rs lines 30-37. -/
structure RaftStateEvent where
  server_id : ServerId
  current_state : RaftNodeState
  current_term : TermIndex
  voted_for : Option (TermIndex × ServerId)
  leader_for_term : Option ServerId
deriving DecidableEq, Repr

/-- An operation released to the transport by the driver dispatch loop:
enqueue_outgoing_request for RpcMessage::Request, enqueue_reply for
RpcMessage::Reply (mod.rs lines 123-128). -/
inductive TransportOp where
  | sendRequest (r : Request)
  | sendReply (r : ReplyTo)
deriving DecidableEq, Repr

/-- The action dispatch loop of the driver, mod.rs lines 118-135, applied to
the already-chained action list. Returns the final timer interval, the
sequence of operations released to the transport, and whether the loop
aborted the thread: the ApplyLogEntries arm is todo!(), which panics, so
dispatch stops there, releasing nothing further. -/
def dispatchActions : List Action → Nat → Nat × List TransportOp × Bool
  | [], timer => (timer, [], false)
  | Action.OutgoingRpc (RpcMessage.request r) :: rest, timer =>
      let (t, ops, p) := dispatchActions rest timer
      (t, TransportOp.sendRequest r :: ops, p)
  | Action.OutgoingRpc (RpcMessage.reply m) :: rest, timer =>
      let (t, ops, p) := dispatchActions rest timer
      (t, TransportOp.sendReply m :: ops, p)
  | Action.StartTickTimer d :: rest, _ => dispatchActions rest d
  | Action.ApplyLogEntries _ :: _, timer => (timer, [], true)

/-- The node state machine and the projections the driver applies to it.
state_machine.rs and default_storage.rs are not under src, and every claim
about the driver holds for an arbitrary transition function, so the step
function, the role projection, the follower leader_id projection and the
storage accessors current_term and voted_for are parameters; sigma is the
Node type, tau the persistent storage, rho the RNG. A step consumes the
state, an event, the storage and the RNG and returns the new state, the
action list, and the mutated storage and RNG (Node::next takes storage and
rng by mutable reference). -/
structure DriverEnv (σ τ ρ : Type) where
  server_id : ServerId
  next : σ → Event → τ → ρ → σ × List Action × τ × ρ
  role : σ → RaftNodeState
  follower_leader_id : σ → Option ServerId
  current_term : τ → TermIndex
  voted_for : τ → Option (TermIndex × ServerId)

/-- The external inputs observed by one iteration of the driver loop:
the result of transport.wait_for_next_incoming_message, the elapsed wait
time read at mod.rs line 115 (Instant::elapsed is non-negative and
saturating, hence a natural number), and the clock reading passed to the
Tick event at line 94. -/
structure IterObs where
  maybeMessage : Option RpcMessage
  elapsedWait : Nat
  tickNow : Nat
deriving DecidableEq, Repr

/-- The observable outcome of one iteration of the driver loop. stepCalls
records each invocation of the transition together with the state it was
invoked on; sent is the sequence of transport operations released; panicked
records whether the dispatch loop hit the todo!() arm; snapshots is the
list of events pushed to the collector during the iteration. -/
structure IterOutput (σ τ ρ : Type) where
  stepCalls : List (σ × Event)
  tickActions : List Action
  msgActions : List Action
  timerAfterElapsed : Nat
  sent : List TransportOp
  panicked : Bool
  snapshots : List RaftStateEvent
  state : σ
  storage : τ
  rng : ρ
  timer : Nat

/-- One iteration of the driver loop body, mod.rs lines 75-154:
step with Tick on the current state; if the transport returned a message,
step with IncomingRpc on the state produced by the Tick step; subtract the
elapsed wait from the timer interval with checked_sub / unwrap_or(0)
(truncated subtraction); dispatch tick actions then message actions; push
one RaftStateEvent snapshot built from the resulting state and storage
(skipped when dispatch panicked, since the thread aborts first). -/
def driverIteration {σ τ ρ : Type} (env : DriverEnv σ τ ρ)
    (state : σ) (storage : τ) (rng : ρ) (timer : Nat) (obs : IterObs) :
    IterOutput σ τ ρ :=
  let tickStep := env.next state (Event.Tick obs.tickNow) storage rng
  let s1 := tickStep.1
  let tickActions := tickStep.2.1
  let st1 := tickStep.2.2.1
  let r1 := tickStep.2.2.2
  let msgStep :=
    match obs.maybeMessage with
    | some m => env.next s1 (Event.IncomingRpc m) st1 r1
    | none => (s1, [], st1, r1)
  let s2 := msgStep.1
  let msgActions := msgStep.2.1
  let st2 := msgStep.2.2.1
  let r2 := msgStep.2.2.2
  let timer1 := timer - obs.elapsedWait
  let dispatched := dispatchActions (tickActions ++ msgActions) timer1
  let timer2 := dispatched.1
  let sent := dispatched.2.1
  let panicked := dispatched.2.2
  { stepCalls := (state, Event.Tick obs.tickNow) ::
      (match obs.maybeMessage with
       | some m => [(s1, Event.IncomingRpc m)]
       | none => [])
    tickActions := tickActions
    msgActions := msgActions
    timerAfterElapsed := timer1
    sent := sent
    panicked := panicked
    snapshots :=
      if panicked then []
      else [{ server_id := env.server_id
              current_state := env.role s2
              current_term := env.current_term st2
              voted_for := env.voted_for st2
              leader_for_term :=
                match env.role s2 with
                | RaftNodeState.Leader => some env.server_id
                | RaftNodeState.Follower => env.follower_leader_id s2
                | RaftNodeState.Candidate => none }]
    state := s2
    storage := st2
    rng := r2
    timer := timer2 }

/-- The driver loop, mod.rs lines 75-154, run over a finite schedule of
per-iteration observations. A panicking iteration (the todo!() arm) aborts
the thread, so the run stops there. -/
def driverRun {σ τ ρ : Type} (env : DriverEnv σ τ ρ) :
    σ → τ → ρ → Nat → List IterObs → List (IterOutput σ τ ρ)
  | _, _, _, _, [] => []
  | s, st, r, timer, obs :: rest =>
      let out := driverIteration env s st r timer obs
      if out.panicked then [out]
      else out :: driverRun env out.state out.storage out.rng out.timer rest

/-! ### Simulated transport (tests/simulator/sim_transport.rs) -/

/-- One pass of the wait loop in
SimNetworkRaftTransport::wait_for_next_incoming_message
(sim_transport.rs lines 57-69): the contents of the inbound channel at the
moment try_recv is called, and the clock reading taken when the channel is
empty. Between passes the thread is parked; each unpark produces the next
observation. -/
structure WaitObs where
  queue : List RpcMessage
  now : Nat
deriving DecidableEq, Repr

/-- The wait loop of sim_transport.rs lines 37-70, run over a finite
schedule of wakeup observations. try_recv returns the head of the inbound
channel if any, and the loop returns it; otherwise, if the time waited
(clock now minus the start instant, a saturating difference of instants)
has reached max_wait, the loop returns none (timeout); otherwise the thread
parks and the loop continues at the next observation. An exhausted schedule
models a still-parked thread: the call has not returned, encoded as the
outer none. -/
def wait_for_next_incoming_message (startedWaitingAt maxWait : Nat) :
    List WaitObs → Option (Option RpcMessage)
  | [] => none
  | obs :: rest =>
      match obs.queue with
      | m :: _ => some (some m)
      | [] =>
          if maxWait ≤ obs.now - startedWaitingAt then some none
          else wait_for_next_incoming_message startedWaitingAt maxWait rest

/-! ### Simulated network (tests/simulator/sim_network.rs) -/

/-- The quality of one directed connection, from NetworkConnectionQuality
(sim_network.rs lines 38-43). The packet-loss Bernoulli distribution is
determined by its success probability, modelled as a rational number (the
source stores an f64 in [0,1]; the functions under study only construct and
store these values, never compute with them). The latency log-normal
distribution is opaque to every operation modelled here, so its type is a
parameter. -/
structure NetworkConnectionQuality (Lat : Type) where
  packet_loss : ℚ
  latency : Lat
deriving DecidableEq, Repr

/-- The simulated network state needed by the claims: the directed
connection table (HashMap modelled as an association list keyed by the
(from, to) pair) and the per-server inbound message channels (keyed by
ServerId, as a total map with empty default). -/
structure SimNetwork (Lat : Type) where
  connections : List ((ServerId × ServerId) × NetworkConnectionQuality Lat)
  inbound : ServerId → List RpcMessage

/-- partition_network, sim_network.rs lines 187-222. First validates that
the partitions are pairwise disjoint (no server in two partitions) and that
every endpoint of every connection is covered (each assert! panics
otherwise, modelled as none). Then, for each connection key (from, to),
finds the partition containing from (unwrap cannot fail once coverage
holds) and, when that partition does not contain to, sets the packet loss
of that connection to the Bernoulli with probability 1.0. Latency fields
are untouched. -/
def partition_network {Lat : Type} (net : SimNetwork Lat)
    (partitions : List (List ServerId)) : Option (SimNetwork Lat) :=
  if ¬ List.Pairwise (fun p q => ∀ s ∈ p, s ∉ q) partitions then none
  else if ¬ (∀ c ∈ net.connections,
      (∃ p ∈ partitions, c.1.1 ∈ p) ∧ (∃ p ∈ partitions, c.1.2 ∈ p)) then none
  else some
    { net with
      connections := net.connections.map (fun c =>
        match partitions.find? (fun p => c.1.1 ∈ p) with
        | some fromPartition =>
            if c.1.2 ∈ fromPartition then c
            else (c.1, { c.2 with packet_loss := 1 })
        | none => (c.1, { c.2 with packet_loss := 1 })) }

/-- heal_network_partition, sim_network.rs lines 224-228: for every
connection in the table, set packet loss to the Bernoulli with
probability 1.0. -/
def heal_network_partition {Lat : Type} (net : SimNetwork Lat) :
    SimNetwork Lat :=
  { net with
    connections := net.connections.map (fun c =>
      (c.1, { c.2 with packet_loss := 1 })) }

/-- The two random samples drawn per message inside
determine_when_and_if_message_should_be_delivered: the Bernoulli packet-loss
sample and the log-normal latency sample converted to u64 milliseconds. The
ChaCha8 RNG is deterministic, so a run consumes a fixed stream of such
sample pairs. -/
structure NetSample where
  dropMessage : Bool
  latencyMillis : Nat
deriving DecidableEq, Repr

/-- determine_when_and_if_message_should_be_delivered, sim_network.rs lines
282-324: sample packet loss and latency for the connection the message
travels on; if the packet-loss sample says drop, the message vanishes
(none); otherwise it is queued unchanged, tagged with now plus the sampled
latency. -/
def determine_when_and_if_message_should_be_delivered
    (message : RpcMessage) (time : Nat) (sample : NetSample) :
    Option (RpcMessage × Nat) :=
  if sample.dropMessage then none
  else some (message, time + sample.latencyMillis)

/-- get_all_queued_outbound_messages, sim_network.rs lines 328-343: drain
the outbound channel; for each message, keep it (paired with its delivery
time) when the packet-loss sample lets it through, drop it otherwise. The
sample stream supplies the RNG draws in order. -/
def get_all_queued_outbound_messages :
    List RpcMessage → List NetSample → Nat → List (RpcMessage × Nat)
  | [], _, _ => []
  | _ :: _, [], _ => []
  | m :: ms, s :: ss, time =>
      match determine_when_and_if_message_should_be_delivered m time s with
      | some queued => queued :: get_all_queued_outbound_messages ms ss time
      | none => get_all_queued_outbound_messages ms ss time

/-- deliver_message, sim_network.rs lines 346-356: send the message,
unchanged, on the inbound channel of the target server. -/
def deliver_message {Lat : Type} (net : SimNetwork Lat)
    (target : ServerId) (message : RpcMessage) : SimNetwork Lat :=
  { net with
    inbound := fun s =>
      if s = target then net.inbound s ++ [message] else net.inbound s }

/-- enqueue_outgoing_request, sim_transport.rs lines 72-76: wrap the
request as RpcMessage::Request and send it on the outbound channel. -/
def enqueue_outgoing_request (queue : List RpcMessage) (request : Request) :
    List RpcMessage :=
  queue ++ [RpcMessage.request request]

/-- enqueue_reply, sim_transport.rs lines 78-82: wrap the reply as
RpcMessage::Reply and send it on the outbound channel. -/
def enqueue_reply (queue : List RpcMessage) (reply : ReplyTo) :
    List RpcMessage :=
  queue ++ [RpcMessage.reply reply]

/-! ### Helper functions describing the dispatch loop -/

/-- Whether an action is an ApplyLogEntries action (the todo!() arm of the
dispatch loop). -/
def isApplyLogEntries : Action → Bool
  | Action.ApplyLogEntries _ => true
  | _ => false

/-- The transport operation an action gives rise to, if any. -/
def outgoingOp : Action → Option TransportOp
  | Action.OutgoingRpc (RpcMessage.request r) => some (TransportOp.sendRequest r)
  | Action.OutgoingRpc (RpcMessage.reply m) => some (TransportOp.sendReply m)
  | _ => none

/-- The transport operations of an action list, in order. -/
def outgoingOps (l : List Action) : List TransportOp :=
  l.filterMap outgoingOp

/-- The duration carried by the last StartTickTimer action of a list,
if any. -/
def lastTimer : List Action → Option Nat
  | [] => none
  | a :: rest =>
      match lastTimer rest with
      | some d => some d
      | none =>
          match a with
          | Action.StartTickTimer d => some d
          | _ => none

/-- On an action list free of ApplyLogEntries, the dispatch loop does not
panic, releases exactly the outgoing messages of the list in order, and
leaves the timer at the duration of the last StartTickTimer action, or at
its initial value if there is none. -/
theorem dispatchActions_no_apply (l : List Action) (timer : Nat)
    (h : ∀ a ∈ l, isApplyLogEntries a = false) :
    dispatchActions l timer = ((lastTimer l).getD timer, outgoingOps l, false) := by
  induction l generalizing timer with
  | nil => rfl
  | cons a rest ih =>
    have hrest : ∀ x ∈ rest, isApplyLogEntries x = false :=
      fun x hx => h x (List.mem_cons_of_mem a hx)
    cases a with
    | OutgoingRpc msg =>
      cases msg with
      | request r =>
        simp only [dispatchActions, ih timer hrest, outgoingOps, List.filterMap_cons,
          outgoingOp, lastTimer]
        cases hlt : lastTimer rest <;> simp [outgoingOps]
      | reply m =>
        simp only [dispatchActions, ih timer hrest, outgoingOps, List.filterMap_cons,
          outgoingOp, lastTimer]
        cases hlt : lastTimer rest <;> simp [outgoingOps]
    | StartTickTimer d =>
      simp only [dispatchActions, ih d hrest, outgoingOps, List.filterMap_cons,
        outgoingOp, lastTimer]
      cases hlt : lastTimer rest <;> simp
    | ApplyLogEntries rg =>
      have := h (Action.ApplyLogEntries rg) (List.mem_cons_self _ _)
      simp [isApplyLogEntries] at this

/-- The dispatch data recorded in an iteration output agree with running
the dispatch loop on the chained action lists, starting from the timer
value left by the elapsed-time decrement. -/
theorem driverIteration_dispatch {σ τ ρ : Type} (env : DriverEnv σ τ ρ)
    (s : σ) (st : τ) (r : ρ) (timer : Nat) (obs : IterObs) :
    ((driverIteration env s st r timer obs).timer,
     (driverIteration env s st r timer obs).sent,
     (driverIteration env s st r timer obs).panicked) =
      dispatchActions
        ((driverIteration env s st r timer obs).tickActions ++
          (driverIteration env s st r timer obs).msgActions)
        ((driverIteration env s st r timer obs).timerAfterElapsed) := rfl

/-- C6: In every driver-loop iteration, before action dispatch, the timer
interval is decremented by the elapsed wait time, saturating at zero
(elapsed time is a non-negative duration, so negative elapsed time cannot
arise); the dispatch loop then starts from that updated value. -/
theorem timer_decrement_saturating {σ τ ρ : Type} (env : DriverEnv σ τ ρ)
    (s : σ) (st : τ) (r : ρ) (timer : Nat) (obs : IterObs) :
    (driverIteration env s st r timer obs).timerAfterElapsed =
      (if obs.elapsedWait ≤ timer then timer - obs.elapsedWait else 0) ∧
    ((driverIteration env s st r timer obs).timer,
     (driverIteration env s st r timer obs).sent,
     (driverIteration env s st r timer obs).panicked) =
      dispatchActions
        ((driverIteration env s st r timer obs).tickActions ++
          (driverIteration env s st r timer obs).msgActions)
        ((driverIteration env s st r timer obs).timerAfterElapsed) := by
  constructor
  · show timer - obs.elapsedWait = _
    split <;> omega
  · exact driverIteration_dispatch env s st r timer obs

/-- C5: In every driver-loop iteration whose action lists contain no
ApplyLogEntries action, the operations released to the transport are
exactly the outgoing messages of the tick actions followed by those of the
message actions, each in returned order, and the final timer interval is
the duration of the last StartTickTimer action in the chained sequence,
defaulting to the decremented value when there is none. -/
theorem dispatch_order_and_timer_overwrite {σ τ ρ : Type}
    (env : DriverEnv σ τ ρ) (s : σ) (st : τ) (r : ρ) (timer : Nat)
    (obs : IterObs)
    (h : ∀ a ∈ (driverIteration env s st r timer obs).tickActions ++
        (driverIteration env s st r timer obs).msgActions,
        isApplyLogEntries a = false) :
    (driverIteration env s st r timer obs).sent =
      outgoingOps (driverIteration env s st r timer obs).tickActions ++
        outgoingOps (driverIteration env s st r timer obs).msgActions ∧
    (driverIteration env s st r timer obs).timer =
      (lastTimer ((driverIteration env s st r timer obs).tickActions ++
          (driverIteration env s st r timer obs).msgActions)).getD
        (driverIteration env s st r timer obs).timerAfterElapsed := by
  have key := driverIteration_dispatch env s st r timer obs
  rw [dispatchActions_no_apply _ _ h] at key
  refine ⟨?_, ?_⟩
  · have h2 := congrArg (fun p => p.2.1) key
    simpa [outgoingOps, List.filterMap_append] using h2
  · exact congrArg (fun p => p.1) key

/-! ### Driver-loop step sequencing and snapshot claims -/

/-- C4: In every driver-loop iteration, the transition is invoked first
with a Tick event on the pre-iteration state; then, exactly when the
transport wait returned a message, it is invoked with IncomingRpc of that
message on the state produced by the Tick step, and never on the pre-tick
state. -/
theorem tick_then_incoming_on_post_tick_state {σ τ ρ : Type}
    (env : DriverEnv σ τ ρ) (s : σ) (st : τ) (r : ρ) (timer : Nat)
    (obs : IterObs) (s1 : σ) (tickActions : List Action) (st1 : τ) (r1 : ρ)
    (ht : env.next s (Event.Tick obs.tickNow) st r = (s1, tickActions, st1, r1)) :
    (driverIteration env s st r timer obs).stepCalls =
      (s, Event.Tick obs.tickNow) ::
        (match obs.maybeMessage with
         | some m => [(s1, Event.IncomingRpc m)]
         | none => []) := by
  obtain ⟨mm, ew, tn⟩ := obs
  cases mm <;> simp_all [driverIteration]

/-- A sample message used by the concrete witnesses: a Vote reply. -/
def sampleVoteMsg : RpcMessage :=
  RpcMessage.reply (ReplyTo.requestVote
    { request_id := 0, fromId := 1, toId := 0, term := 1, vote_granted := true })

/-- A driver environment over trivial state, storage and RNG types whose
transition returns the given actions for each event; used to instantiate
the driver-loop theorems on concrete inputs. -/
def constEnv (acts : Event → List Action) : DriverEnv Unit Unit Unit :=
  { server_id := 0
    next := fun _ e _ _ => ((), acts e, (), ())
    role := fun _ => RaftNodeState.Follower
    follower_leader_id := fun _ => none
    current_term := fun _ => 0
    voted_for := fun _ => none }

/-- A driver environment whose transition returns no actions. -/
def noActionEnv : DriverEnv Unit Unit Unit := constEnv (fun _ => [])

/-- Witness for C4 at a concrete iteration that processes a message. -/
theorem tick_then_incoming_on_post_tick_state_witness :
    (driverIteration noActionEnv () () () 5
        { maybeMessage := some sampleVoteMsg, elapsedWait := 2, tickNow := 9 }).stepCalls =
      [((), Event.Tick 9), ((), Event.IncomingRpc sampleVoteMsg)] :=
  tick_then_incoming_on_post_tick_state noActionEnv () () () 5
    { maybeMessage := some sampleVoteMsg, elapsedWait := 2, tickNow := 9 }
    () [] () () rfl

/-- Witness for C5 at a concrete iteration: two outgoing messages and two
StartTickTimer actions, the later duration winning. -/
theorem dispatch_order_and_timer_overwrite_witness :
    (∀ a ∈ (driverIteration
          (constEnv (fun e =>
            match e with
            | Event.Tick _ => [Action.StartTickTimer 7,
                Action.OutgoingRpc sampleVoteMsg]
            | Event.IncomingRpc _ => [Action.OutgoingRpc sampleVoteMsg,
                Action.StartTickTimer 3]))
          () () () 5
          { maybeMessage := some sampleVoteMsg, elapsedWait := 2,
            tickNow := 0 }).tickActions ++
        (driverIteration
          (constEnv (fun e =>
            match e with
            | Event.Tick _ => [Action.StartTickTimer 7,
                Action.OutgoingRpc sampleVoteMsg]
            | Event.IncomingRpc _ => [Action.OutgoingRpc sampleVoteMsg,
                Action.StartTickTimer 3]))
          () () () 5
          { maybeMessage := some sampleVoteMsg, elapsedWait := 2,
            tickNow := 0 }).msgActions,
        isApplyLogEntries a = false) ∧
    (driverIteration
        (constEnv (fun e =>
          match e with
          | Event.Tick _ => [Action.StartTickTimer 7,
              Action.OutgoingRpc sampleVoteMsg]
          | Event.IncomingRpc _ => [Action.OutgoingRpc sampleVoteMsg,
              Action.StartTickTimer 3]))
        () () () 5
        { maybeMessage := some sampleVoteMsg, elapsedWait := 2,
          tickNow := 0 }).timer = 3 :=
  ⟨by decide,
   (dispatch_order_and_timer_overwrite
      (constEnv (fun e =>
        match e with
        | Event.Tick _ => [Action.StartTickTimer 7,
            Action.OutgoingRpc sampleVoteMsg]
        | Event.IncomingRpc _ => [Action.OutgoingRpc sampleVoteMsg,
            Action.StartTickTimer 3]))
      () () () 5
      { maybeMessage := some sampleVoteMsg, elapsedWait := 2, tickNow := 0 }
      (by decide)).2.trans (by decide)⟩

/-- C3 counterexample: a driver-loop iteration that processes an incoming
message makes two transition invocations yet pushes exactly one snapshot
to the event collector, so snapshots are not one per step call. -/
theorem two_step_calls_one_snapshot :
    (driverIteration noActionEnv () () () 5
        { maybeMessage := some sampleVoteMsg, elapsedWait := 0,
          tickNow := 0 }).stepCalls.length = 2 ∧
    (driverIteration noActionEnv () () () 5
        { maybeMessage := some sampleVoteMsg, elapsedWait := 0,
          tickNow := 0 }).snapshots.length = 1 := by
  decide

/-- C3 amended: in every driver-loop iteration that completes (the dispatch
loop does not hit the panicking ApplyLogEntries arm), exactly one snapshot
is pushed to the event collector, regardless of whether the iteration made
one or two step calls. -/
theorem snapshot_once_per_iteration {σ τ ρ : Type} (env : DriverEnv σ τ ρ)
    (s : σ) (st : τ) (r : ρ) (timer : Nat) (obs : IterObs)
    (h : (driverIteration env s st r timer obs).panicked = false) :
    (driverIteration env s st r timer obs).snapshots.length = 1 := by
  simp only [driverIteration] at h ⊢
  simp [h]

/-- Witness for the amended C3 at a concrete non-panicking iteration. -/
theorem snapshot_once_per_iteration_witness :
    (driverIteration noActionEnv () () () 5
        { maybeMessage := none, elapsedWait := 3,
          tickNow := 7 }).snapshots.length = 1 :=
  snapshot_once_per_iteration noActionEnv () () () 5
    { maybeMessage := none, elapsedWait := 3, tickNow := 7 } (by decide)

/-- C1: a step call returning an ApplyLogEntries action makes the dispatch
loop hit the todo!() arm: the iteration panics (aborting the node thread),
nothing is emitted for the range (the dispatch loop has no apply path at
all), and no snapshot is pushed. -/
theorem applyLogEntries_dispatch_panics :
    (driverIteration
        (constEnv (fun e =>
          match e with
          | Event.Tick _ => [Action.ApplyLogEntries (1, 2)]
          | Event.IncomingRpc _ => []))
        () () () 10
        { maybeMessage := none, elapsedWait := 0, tickNow := 0 }).panicked = true ∧
    (driverIteration
        (constEnv (fun e =>
          match e with
          | Event.Tick _ => [Action.ApplyLogEntries (1, 2)]
          | Event.IncomingRpc _ => []))
        () () () 10
        { maybeMessage := none, elapsedWait := 0, tickNow := 0 }).sent = [] ∧
    (driverIteration
        (constEnv (fun e =>
          match e with
          | Event.Tick _ => [Action.ApplyLogEntries (1, 2)]
          | Event.IncomingRpc _ => []))
        () () () 10
        { maybeMessage := none, elapsedWait := 0, tickNow := 0 }).snapshots = [] := by
  decide

/-- C8: the driver loop is deterministic: two runs from the same initial
state, storage, RNG state and timer, over the same schedule of transport
results, elapsed times and clock readings, produce identical role
sequences, identical transport-operation sequences and identical snapshot
sequences. -/
theorem driver_run_deterministic {σ τ ρ : Type}
    (env₁ env₂ : DriverEnv σ τ ρ) (s₁ s₂ : σ) (st₁ st₂ : τ) (r₁ r₂ : ρ)
    (t₁ t₂ : Nat) (obss₁ obss₂ : List IterObs)
    (henv : env₁ = env₂) (hs : s₁ = s₂) (hst : st₁ = st₂) (hr : r₁ = r₂)
    (ht : t₁ = t₂) (hobs : obss₁ = obss₂) :
    ((driverRun env₁ s₁ st₁ r₁ t₁ obss₁).map fun o => env₁.role o.state) =
      ((driverRun env₂ s₂ st₂ r₂ t₂ obss₂).map fun o => env₂.role o.state) ∧
    ((driverRun env₁ s₁ st₁ r₁ t₁ obss₁).map fun o => o.sent) =
      ((driverRun env₂ s₂ st₂ r₂ t₂ obss₂).map fun o => o.sent) ∧
    ((driverRun env₁ s₁ st₁ r₁ t₁ obss₁).map fun o => o.snapshots) =
      ((driverRun env₂ s₂ st₂ r₂ t₂ obss₂).map fun o => o.snapshots) := by
  subst henv hs hst hr ht hobs
  exact ⟨rfl, rfl, rfl⟩

/-- Witness for C8 at a concrete two-iteration schedule. -/
theorem driver_run_deterministic_witness :
    ((driverRun noActionEnv () () () 5
          [{ maybeMessage := some sampleVoteMsg, elapsedWait := 1, tickNow := 1 },
           { maybeMessage := none, elapsedWait := 2, tickNow := 3 }]).map
        fun o => noActionEnv.role o.state) =
      ((driverRun noActionEnv () () () 5
          [{ maybeMessage := some sampleVoteMsg, elapsedWait := 1, tickNow := 1 },
           { maybeMessage := none, elapsedWait := 2, tickNow := 3 }]).map
        fun o => noActionEnv.role o.state) ∧
    ((driverRun noActionEnv () () () 5
          [{ maybeMessage := some sampleVoteMsg, elapsedWait := 1, tickNow := 1 },
           { maybeMessage := none, elapsedWait := 2, tickNow := 3 }]).map
        fun o => o.sent) =
      ((driverRun noActionEnv () () () 5
          [{ maybeMessage := some sampleVoteMsg, elapsedWait := 1, tickNow := 1 },
           { maybeMessage := none, elapsedWait := 2, tickNow := 3 }]).map
        fun o => o.sent) ∧
    ((driverRun noActionEnv () () () 5
          [{ maybeMessage := some sampleVoteMsg, elapsedWait := 1, tickNow := 1 },
           { maybeMessage := none, elapsedWait := 2, tickNow := 3 }]).map
        fun o => o.snapshots) =
      ((driverRun noActionEnv () () () 5
          [{ maybeMessage := some sampleVoteMsg, elapsedWait := 1, tickNow := 1 },
           { maybeMessage := none, elapsedWait := 2, tickNow := 3 }]).map
        fun o => o.snapshots) :=
  driver_run_deterministic noActionEnv noActionEnv () () () () () () 5 5
    [{ maybeMessage := some sampleVoteMsg, elapsedWait := 1, tickNow := 1 },
     { maybeMessage := none, elapsedWait := 2, tickNow := 3 }]
    [{ maybeMessage := some sampleVoteMsg, elapsedWait := 1, tickNow := 1 },
     { maybeMessage := none, elapsedWait := 2, tickNow := 3 }]
    rfl rfl rfl rfl rfl rfl

/-! ### Simulated transport claims -/

/-- C7: the wait loop of the simulator transport (a) returns the pending
head message immediately when one is already delivered at the first wakeup,
(b) whenever it returns a message, that message was the head of the inbound
channel at some wakeup, and (c) it returns none only at a wakeup where the
channel was empty and the time waited on the injected clock had reached at
least max_wait. -/
theorem wait_returns_message_or_times_out (startedWaitingAt maxWait : Nat)
    (obss : List WaitObs) :
    (∀ obs₀ rest m ms, obss = obs₀ :: rest → obs₀.queue = m :: ms →
        wait_for_next_incoming_message startedWaitingAt maxWait obss =
          some (some m)) ∧
    (∀ m, wait_for_next_incoming_message startedWaitingAt maxWait obss =
          some (some m) →
        ∃ obs ∈ obss, obs.queue.head? = some m) ∧
    (wait_for_next_incoming_message startedWaitingAt maxWait obss =
          some none →
        ∃ obs ∈ obss, obs.queue = [] ∧
          maxWait ≤ obs.now - startedWaitingAt) := by
  induction obss with
  | nil =>
    refine ⟨?_, ?_, ?_⟩
    · intro obs₀ rest m ms h
      exact absurd h (by simp)
    · intro m h
      simp [wait_for_next_incoming_message] at h
    · intro h
      simp [wait_for_next_incoming_message] at h
  | cons obs rest ih =>
    refine ⟨?_, ?_, ?_⟩
    · rintro obs₀ rest' m ms heq hq
      injection heq with h1 h2
      subst h1
      subst h2
      simp [wait_for_next_incoming_message, hq]
    · intro m hret
      cases hq : obs.queue with
      | cons m' tail =>
        simp only [wait_for_next_incoming_message, hq, Option.some.injEq] at hret
        exact ⟨obs, List.mem_cons_self _ _, by simp [hq, hret]⟩
      | nil =>
        simp only [wait_for_next_incoming_message, hq] at hret
        by_cases hle : maxWait ≤ obs.now - startedWaitingAt
        · rw [if_pos hle] at hret
          injection hret with hret'
          exact absurd hret' (by simp)
        · rw [if_neg hle] at hret
          obtain ⟨o, ho, hh⟩ := ih.2.1 m hret
          exact ⟨o, List.mem_cons_of_mem obs ho, hh⟩
    · intro hret
      cases hq : obs.queue with
      | cons m' tail =>
        simp only [wait_for_next_incoming_message, hq] at hret
        injection hret with hret'
        exact absurd hret' (by simp)
      | nil =>
        simp only [wait_for_next_incoming_message, hq] at hret
        by_cases hle : maxWait ≤ obs.now - startedWaitingAt
        · exact ⟨obs, List.mem_cons_self _ _, hq, hle⟩
        · rw [if_neg hle] at hret
          obtain ⟨o, ho, hh⟩ := ih.2.2 hret
          exact ⟨o, List.mem_cons_of_mem obs ho, hh⟩

/-- Witness for C7: a wait that times out after the injected clock has
advanced past max_wait, at a wakeup with an empty channel. -/
theorem wait_returns_message_or_times_out_witness :
    ∃ obs ∈ [({ queue := [], now := 5 } : WaitObs)],
      obs.queue = [] ∧ 3 ≤ obs.now - 0 :=
  (wait_returns_message_or_times_out 0 3
    [{ queue := [], now := 5 }]).2.2 (by decide)

/-! ### Simulated network message round-trip (C9) -/

/-- A sample RequestVote request used by concrete witnesses. -/
def sampleReq : Request :=
  Request.requestVote
    { request_id := 0, fromId := 0, toId := 1, term := 1,
      last_log_index := 0, last_log_term := 0 }

/-- A sample AppendEntriesReply used by concrete witnesses. -/
def sampleRep : ReplyTo :=
  ReplyTo.appendEntries
    { request_id := 1, fromId := 1, toId := 0, term := 1,
      success := true, match_index := 0 }

/-- An empty simulated network over a trivial latency type. -/
def emptyNet : SimNetwork Unit :=
  { connections := [], inbound := fun _ => [] }

/-- C9: messages travel through the simulated network unmodified. Every
message the network queues for delivery is drawn, unchanged, from the
outbound channel; an enqueued request (or reply) that the packet-loss
sample lets through is queued exactly as sent, tagged with the sampled
delivery time; deliver_message appends the message unchanged to the
inbound channel of the target; and a transport waiting on that channel
receives exactly the delivered message. -/
theorem delivered_messages_unmodified {Lat : Type} (net : SimNetwork Lat)
    (q : List RpcMessage) (ss : List NetSample) (time lat : Nat)
    (r : Request) (rep : ReplyTo) (target : ServerId) (msg : RpcMessage)
    (startedWaitingAt maxWait now : Nat) :
    (∀ p ∈ get_all_queued_outbound_messages q ss time, p.1 ∈ q) ∧
    get_all_queued_outbound_messages (enqueue_outgoing_request [] r)
        [{ dropMessage := false, latencyMillis := lat }] time =
      [(RpcMessage.request r, time + lat)] ∧
    get_all_queued_outbound_messages (enqueue_reply [] rep)
        [{ dropMessage := false, latencyMillis := lat }] time =
      [(RpcMessage.reply rep, time + lat)] ∧
    (deliver_message net target msg).inbound target =
      net.inbound target ++ [msg] ∧
    wait_for_next_incoming_message startedWaitingAt maxWait
        [{ queue := (deliver_message { net with inbound := fun _ => [] }
            target msg).inbound target, now := now }] =
      some (some msg) := by
  refine ⟨?_, rfl, rfl, by simp [deliver_message], ?_⟩
  · intro p hp
    induction q generalizing ss with
    | nil => simp [get_all_queued_outbound_messages] at hp
    | cons m ms ih =>
      cases ss with
      | nil => simp [get_all_queued_outbound_messages] at hp
      | cons s tail =>
        simp only [get_all_queued_outbound_messages,
          determine_when_and_if_message_should_be_delivered] at hp
        by_cases hd : s.dropMessage
        · rw [if_pos hd] at hp
          exact List.mem_cons_of_mem m (ih tail hp)
        · rw [if_neg hd] at hp
          rcases List.mem_cons.mp hp with heq | hmem
          · rw [show p.1 = m from congrArg Prod.fst heq]
            exact List.mem_cons_self m ms
          · exact List.mem_cons_of_mem m (ih tail hmem)
  · simp [deliver_message, wait_for_next_incoming_message]

/-- Witness for C9: a concrete message queued through the network is a
member of the original outbound queue. -/
theorem delivered_messages_unmodified_witness :
    (RpcMessage.request sampleReq, 7) ∈
      get_all_queued_outbound_messages [RpcMessage.request sampleReq]
        [{ dropMessage := false, latencyMillis := 4 }] 3 ∧
    RpcMessage.request sampleReq ∈ [RpcMessage.request sampleReq] :=
  ⟨by decide,
   (delivered_messages_unmodified emptyNet [RpcMessage.request sampleReq]
      [{ dropMessage := false, latencyMillis := 4 }] 3 4 sampleReq sampleRep
      0 (RpcMessage.request sampleReq) 0 1 0).1
     (RpcMessage.request sampleReq, 7) (by decide)⟩

/-! ### Network partitioning claims -/

/-- A two-server network whose two directed connections both have
packet-loss probability 0. -/
def preHealNet : SimNetwork Unit :=
  { connections :=
      [((0, 1), { packet_loss := 0, latency := () }),
       ((1, 0), { packet_loss := 0, latency := () })]
    inbound := fun _ => [] }

/-- C2: healing does not restore the pre-partition packet-loss
configuration. Starting from a network whose connections all have
packet-loss probability 0, partitioning it into two singleton partitions
and then calling heal_network_partition leaves every connection with
packet-loss probability 1, not the prior value 0. -/
theorem heal_network_partition_sets_loss_to_one :
    preHealNet.connections.map (fun c => c.2.packet_loss) = [0, 0] ∧
    (partition_network preHealNet [[0], [1]]).map
        (fun n => (heal_network_partition n).connections.map
          (fun c => c.2.packet_loss)) = some [1, 1] ∧
    (1 : ℚ) ≠ 0 := by
  refine ⟨by decide, ?_, by norm_num⟩
  have hres : partition_network preHealNet [[0], [1]] =
      some { preHealNet with connections :=
        [((0, 1), { packet_loss := 1, latency := () }),
         ((1, 0), { packet_loss := 1, latency := () })] } := by
    rw [partition_network, if_neg, if_neg]
    · rfl
    · simp [preHealNet]
    · exact not_not_intro (by decide)
  rw [hres]
  rfl

/-- C10: for a valid family of partitions (pairwise disjoint and covering
every endpoint of every connection), partition_network succeeds and maps
the connection table pointwise: keys are unchanged, every latency
distribution is unchanged, a connection whose endpoints lie in a common
partition keeps its packet-loss probability, and a connection whose
endpoints lie in different partitions gets packet-loss probability 1. -/
theorem partition_network_packet_loss_spec {Lat : Type}
    (net : SimNetwork Lat) (partitions : List (List ServerId))
    (conns : List ((ServerId × ServerId) × NetworkConnectionQuality Lat))
    (hdisj : List.Pairwise (fun p q => ∀ s ∈ p, s ∉ q) partitions)
    (hcov : ∀ c ∈ net.connections,
      (∃ p ∈ partitions, c.1.1 ∈ p) ∧ (∃ p ∈ partitions, c.1.2 ∈ p))
    (hres : (partition_network net partitions).map
        (fun n => n.connections) = some conns) :
    List.Forall₂ (fun old new =>
      new.1 = old.1 ∧
      new.2.latency = old.2.latency ∧
      new.2.packet_loss =
        (if ∃ p ∈ partitions, old.1.1 ∈ p ∧ old.1.2 ∈ p
         then old.2.packet_loss else 1))
      net.connections conns := by
  rw [partition_network, if_neg (not_not_intro hdisj),
    if_neg (not_not_intro hcov)] at hres
  simp only [Option.map_some', Option.some.injEq] at hres
  rw [← hres]
  rw [List.forall₂_map_right_iff, List.forall₂_same]
  intro c hc
  obtain ⟨⟨p₀, hp₀mem, hp₀from⟩, _⟩ := hcov c hc
  have hfind : ∃ fp, partitions.find? (fun p => c.1.1 ∈ p) = some fp := by
    rw [← Option.isSome_iff_exists]
    exact List.find?_isSome.mpr ⟨p₀, hp₀mem, by simpa using hp₀from⟩
  obtain ⟨fp, hfp⟩ := hfind
  have hfpmem : fp ∈ partitions := List.mem_of_find?_eq_some hfp
  have hfrom : c.1.1 ∈ fp := by simpa using List.find?_some hfp
  by_cases hto : c.1.2 ∈ fp
  · have hcond : ∃ p ∈ partitions, c.1.1 ∈ p ∧ c.1.2 ∈ p :=
      ⟨fp, hfpmem, hfrom, hto⟩
    simp [hfp, hto, hcond]
  · have hnone : ¬ ∃ p ∈ partitions, c.1.1 ∈ p ∧ c.1.2 ∈ p := by
      rintro ⟨qp, hqmem, hq1, hq2⟩
      by_cases heq : fp = qp
      · exact hto (heq ▸ hq2)
      · have hsymm : Symmetric
            (fun (p q : List ServerId) => ∀ s ∈ p, s ∉ q) := by
          intro p q hpq x hxq hxp
          exact hpq x hxp hxq
        exact (List.Pairwise.forall hsymm hdisj) hfpmem hqmem heq c.1.1
          hfrom hq1
    simp [hfp, hto, hnone]

/-- Witness for C10 on the two-server network split into two singleton
partitions: both cross-partition connections get packet loss 1 with
latencies untouched. -/
theorem partition_network_packet_loss_spec_witness :
    List.Forall₂
      (fun (old new : (ServerId × ServerId) × NetworkConnectionQuality Unit) =>
        new.1 = old.1 ∧
        new.2.latency = old.2.latency ∧
        new.2.packet_loss =
          (if ∃ p ∈ ([[0], [1]] : List (List ServerId)),
              old.1.1 ∈ p ∧ old.1.2 ∈ p
           then old.2.packet_loss else 1))
      preHealNet.connections
      [((0, 1), { packet_loss := 1, latency := () }),
       ((1, 0), { packet_loss := 1, latency := () })] :=
  partition_network_packet_loss_spec preHealNet [[0], [1]]
    [((0, 1), { packet_loss := 1, latency := () }),
     ((1, 0), { packet_loss := 1, latency := () })]
    (by decide) (by decide)
    (by rw [partition_network, if_neg, if_neg]
        · rfl
        · simp [preHealNet]
        · exact not_not_intro (by decide))

end RaftToy
